import Mathlib

/-!
Verification of the identity-reconciliation and caching pipeline of `app.py`
(a Streamlit dashboard joining a CSV roster against Discord and Roblox data).

The shallow embedding below translates the pipeline from the source:
  * `get_roblox_avatar_urls` / `get_roblox_creation_dates` (app.py lines 52-108),
  * the merge loop of `refresh_all_data` (app.py lines 253-295),
  * the snapshot cache `combined_data.json` (write: lines 297-300,
    read: `load_cached_data`, lines 315-327),
  * the fatal-abort control flow of `refresh_all_data` (lines 189-221).

Modelling conventions, stated once:
  * Python strings are Lean `String`s; where character-level reasoning is
    needed we work on `String.data : List Char` (a Python `str` is a sequence
    of code points).  `str.strip()` is modelled by `pyStrip`, with Python's
    notion of whitespace approximated by `Char.isWhitespace`.
  * A missing CSV cell is modelled as `none`.  CSV ingestion itself
    (`pd.read_csv`) is outside the pipeline; the roster arrives as the
    tabular structure of spec section 3.  Python truthiness is embedded
    explicitly: `None` and `""` are falsy, an integer is falsy exactly
    when it is `0` (this matters at app.py line 292, `roblox_id or "N/A"`).
  * `json.dump` / `json.load` of the standard library are treated as a
    faithful bijection between JSON text and the JSON value model `J`
    below; a snapshot file therefore is `missing`, `unparsable`
    (text that `json.load` rejects with `JSONDecodeError`), or
    `content j` for a JSON value `j`.
  * Python dicts keyed by ints are association lists with first-match
    lookup and replace-in-place insert (`pyInsert` / `lookupD`), which is
    Python's observable dict behaviour for these programs.
  * Network responses are oracles passed as explicit function arguments:
    the code's behaviour is a function of whatever the remote endpoints
    answer.
-/

namespace BmInfo

/-! ## JSON value model -/

/-- JSON values as produced and consumed by `json.dump` / `json.load` for the
data this program serializes (null, strings, integers, arrays, objects). -/
inductive J where
  | null
  | str (s : String)
  | int (n : Int)
  | arr (xs : List J)
  | obj (fields : List (String × J))

/-- The snapshot file `combined_data.json` as seen by a reader: absent,
present but rejected by `json.load`, or present with a parsed JSON value. -/
inductive FileState where
  | missing
  | unparsable
  | content (j : J)

/-! ## Data model -/

/-- One row of `users.csv` after ingestion (spec: RosterEntry).  `discordId`
is `none` when the cell is missing (pandas NA); `robloxUsername` likewise. -/
structure RosterRow where
  discordId : Option String
  discordUsername : String
  robloxUsername : Option String

/-- One value of `discord_data.json` (app.py lines 142-147): the fields the
merge loop reads back with `.get`, each possibly absent (error entries of the
form `\x7b"error": ...\x7d` have all four fields absent). -/
structure DiscordInfo where
  username : Option String
  displayName : Option String
  createdAt : Option String
  joinedAt : Option String

/-- The `robloxId` field of a merged record: the source stores either the
integer id or the string sentinel `"N/A"` (app.py line 292). -/
inductive RId where
  | num (n : Int)
  | na
deriving DecidableEq

/-- One element of `combined_data` (app.py lines 285-295). -/
structure MergedRecord where
  discordUsername : String
  discordDisplayName : String
  discordId : String
  discordJoinDate : Option String
  discordCreationDate : Option String
  robloxUsername : String
  robloxId : RId
  robloxCreationDate : Option String
  robloxAvatarUrl : String

/-- app.py line 29. -/
def ROBLOX_AVATAR_PLACEHOLDER : String :=
  "https://placehold.co/150x150/5865F2/FFFFFF?text=N/A"

/-! ## Python-semantics helpers -/

/-- Python `a or b` where `a` is an optional string (`None` and `""` falsy). -/
def pyOrOS (a : Option String) (b : String) : String :=
  match a with
  | some s => if s == "" then b else s
  | none => b

/-- Python `a or b` on strings (`""` falsy). -/
def pyOrSS (a b : String) : String :=
  if a == "" then b else a

/-- Python `str(cell)` for a possibly-missing CSV cell: a missing cell is
NaN, whose `str()` is `"nan"` (app.py line 255). -/
def pyStrCell : Option String → String
  | some s => s
  | none => "nan"

/-- Python `c in s` on the character list of a string. -/
def listHas (c : Char) : List Char → Bool
  | [] => false
  | x :: xs => (x == c) || listHas c xs

/-- Python `str.strip()`: drop whitespace from both ends. -/
def pyStripChars (l : List Char) : List Char :=
  ((l.dropWhile Char.isWhitespace).reverse.dropWhile Char.isWhitespace).reverse

/-- Python `str.strip()` on strings. -/
def pyStrip (s : String) : String :=
  String.mk (pyStripChars s.data)

/-- Python `str.lower()` (code-point-wise). -/
def pyLower (s : String) : String :=
  String.mk (s.data.map Char.toLower)

/-- `pandas.unique` by a running seen-set: keep an element only at its first
occurrence. -/
def pdUniqueGo {α : Type} [DecidableEq α] (seen : List α) : List α → List α
  | [] => []
  | x :: xs => if x ∈ seen then pdUniqueGo seen xs else x :: pdUniqueGo (x :: seen) xs

/-- `pandas.unique`: deduplicate preserving the first occurrence. -/
def pdUnique {α : Type} [DecidableEq α] (l : List α) : List α :=
  pdUniqueGo [] l

/-- Python dict insert `m[k] = v`: replace in place if the key is present,
append otherwise. -/
def pyInsert {β : Type} (m : List (Int × β)) (k : Int) (v : β) : List (Int × β) :=
  match m with
  | [] => [(k, v)]
  | (k', v') :: rest => if k' = k then (k, v) :: rest else (k', v') :: pyInsert rest k v

/-- Python dict lookup `m.get(k)`. -/
def lookupD {β : Type} : List (Int × β) → Int → Option β
  | [], _ => none
  | (k', v') :: rest, k => if k' = k then some v' else lookupD rest k

/-- The key set of a dict. -/
def keysD {β : Type} (m : List (Int × β)) : List Int :=
  m.map (fun p => p.1)

/-! ## Snapshot cache -/

/-- `none` maps to JSON null, `some s` to a JSON string. -/
def encodeOS : Option String → J
  | none => .null
  | some s => .str s

/-- The `robloxId` field as serialized: an integer or the string `"N/A"`. -/
def encodeRId : RId → J
  | .num n => .int n
  | .na => .str "N/A"

/-- The JSON object `json.dump` writes for one merged record, with the
field order of app.py lines 285-295. -/
def encodeRecord (r : MergedRecord) : J :=
  .obj [("discordUsername", .str r.discordUsername),
        ("discordDisplayName", .str r.discordDisplayName),
        ("discordId", .str r.discordId),
        ("discordJoinDate", encodeOS r.discordJoinDate),
        ("discordCreationDate", encodeOS r.discordCreationDate),
        ("robloxUsername", .str r.robloxUsername),
        ("robloxId", encodeRId r.robloxId),
        ("robloxCreationDate", encodeOS r.robloxCreationDate),
        ("robloxAvatarUrl", .str r.robloxAvatarUrl)]

/-- Object field lookup (first occurrence). -/
def jGet : List (String × J) → String → Option J
  | [], _ => none
  | (k, v) :: rest, key => if k = key then some v else jGet rest key

/-- Read back a mandatory string field. -/
def asStr : Option J → Option String
  | some (.str s) => some s
  | _ => none

/-- Read back a nullable string field. -/
def asOS : Option J → Option (Option String)
  | some .null => some none
  | some (.str s) => some (some s)
  | _ => none

/-- Read back the mixed int-or-"N/A" `robloxId` field. -/
def asRId : Option J → Option RId
  | some (.int n) => some (.num n)
  | some (.str s) => if s = "N/A" then some .na else none
  | _ => none

/-- Decode one serialized merged record. -/
def decodeRecord (j : J) : Option MergedRecord :=
  match j with
  | .obj fs =>
    match asStr (jGet fs "discordUsername"), asStr (jGet fs "discordDisplayName"),
          asStr (jGet fs "discordId"), asOS (jGet fs "discordJoinDate"),
          asOS (jGet fs "discordCreationDate"), asStr (jGet fs "robloxUsername"),
          asRId (jGet fs "robloxId"), asOS (jGet fs "robloxCreationDate"),
          asStr (jGet fs "robloxAvatarUrl") with
    | some a, some b, some c, some d, some e, some f, some g, some h, some i =>
      some ⟨a, b, c, d, e, f, g, h, i⟩
    | _, _, _, _, _, _, _, _, _ => none
  | _ => none

/-- Decode a serialized snapshot element list. -/
def decodeList : List J → Option (List MergedRecord)
  | [] => some []
  | j :: js =>
    match decodeRecord j, decodeList js with
    | some r, some rs => some (r :: rs)
    | _, _ => none

/-- Decode a whole snapshot value (`combined_data` is a JSON array). -/
def decodeRecords : J → Option (List MergedRecord)
  | .arr xs => decodeList xs
  | _ => none

/-- Snapshot write, app.py lines 299-300: `json.dump(combined_data, f)` to
`combined_data.json`, leaving the file holding the serialized array. -/
def writeSnapshot (rs : List MergedRecord) : FileState :=
  .content (.arr (rs.map encodeRecord))

/-- `load_cached_data` (app.py lines 315-327): returns the parsed value, or
`None` when the file is absent, or `None` plus an operator-visible error
message (`st.error`) when `json.load` raises `JSONDecodeError`.  The result
pair is (returned value, error messages surfaced to the viewer). -/
def load_cached_data : FileState → Option J × List String
  | .missing => (none, [])
  | .unparsable =>
    (none, ["Could not read cached data file. It may be corrupted. Try refreshing."])
  | .content j => (some j, [])

/-- Reading the snapshot back as merged records (the parsed JSON value of
`load_cached_data`, decoded against the record shape). -/
def readRecords (fs : FileState) : Option (List MergedRecord) :=
  (load_cached_data fs).1.bind decodeRecords

/-- The succession of observable contents of `combined_data.json` during the
snapshot write of app.py lines 299-300: `open(path, "w")` truncates the file
in place, so until `json.dump` finishes the file holds a strict prefix of the
new JSON text (initially the empty string), which `json.load` rejects; only
the final state holds the complete snapshot. -/
def pyWriteTrace (rs : List MergedRecord) : List FileState :=
  [.unparsable, writeSnapshot rs]

/-! ## Roblox fetchers (app.py lines 52-108) -/

/-- Chunking worker, structurally recursive on a fuel bound; with fuel at
least the list length the fuel never runs out (each step drops at least one
element), so the `0, x :: xs` arm is unreachable from `chunked`. -/
def chunkedGo {α : Type} : Nat → List α → List (List α)
  | _, [] => []
  | 0, x :: xs => [x :: xs]
  | n + 1, x :: xs => ((x :: xs).take 100) :: chunkedGo n ((x :: xs).drop 100)

/-- Split a list into consecutive chunks of 100, mirroring
`for i in range(0, len(valid_ids), 100): batch = valid_ids[i:i+100]`
(app.py lines 85-86). -/
def chunked {α : Type} (l : List α) : List (List α) :=
  chunkedGo l.length l

theorem chunkedGo_congr {α : Type} :
    ∀ (m n : Nat) (l : List α), l.length ≤ m → l.length ≤ n →
      chunkedGo m l = chunkedGo n l := by
  intro m
  induction m with
  | zero =>
    intro n l hm _
    have : l = [] := List.length_eq_zero.mp (Nat.le_zero.mp hm)
    subst this
    cases n <;> rfl
  | succ m ih =>
    intro n l hm hn
    match l with
    | [] => cases n <;> rfl
    | x :: xs =>
      match n with
      | 0 => simp at hn
      | n + 1 =>
        simp only [chunkedGo]
        rw [ih n ((x :: xs).drop 100) (by simp at hm ⊢; omega) (by simp at hn ⊢; omega)]

/-- The characteristic equation of the source loop: the first chunk is the
first 100 elements, the rest is the chunking of what remains. -/
theorem chunked_cons {α : Type} (x : α) (xs : List α) :
    chunked (x :: xs) = ((x :: xs).take 100) :: chunked ((x :: xs).drop 100) := by
  show chunkedGo (xs.length + 1) (x :: xs) = _
  simp only [chunkedGo]
  rw [chunkedGo_congr xs.length ((x :: xs).drop 100).length ((x :: xs).drop 100)
    (by simp) (le_refl _)]
  rfl

/-- `get_roblox_avatar_urls` (app.py lines 74-108).  `api` is the avatar
endpoint: for a requested batch it answers a list of
`(targetId, imageUrl)` pairs.  Returns the list of issued batch calls
(one HTTP request per chunk) and the accumulated `avatar_map`.  The source
filter `if uid and pd.notna(uid)` keeps exactly the nonzero ids; the ids
travel as decimal strings on the wire, modelled here by the integers
themselves. -/
def get_roblox_avatar_urls (api : List Int → List (Int × String))
    (user_ids : List Int) : List (List Int) × List (Int × String) :=
  let valid_ids := user_ids.filter (fun uid => !(uid == 0))
  let batches := chunked valid_ids
  (batches,
   batches.foldl (fun m b => (api b).foldl (fun m' p => pyInsert m' p.1 p.2) m) [])

/-- Outcome of one per-id profile request in `get_roblox_creation_dates`:
HTTP 200 with a (possibly null) `created` field, a non-200 status, or a
raised `requests.RequestException`. -/
inductive FetchOutcome where
  | ok (created : Option String)
  | httpErr (code : Nat)
  | exn

/-- The value stored for one id (app.py lines 63-70): the `created` field on
status 200, `None` on any other status or on an exception. -/
def outcomeVal : FetchOutcome → Option String
  | .ok c => c
  | .httpErr _ => none
  | .exn => none

/-- `get_roblox_creation_dates` (app.py lines 52-72).  `api` is the per-id
profile endpoint.  Returns the list of ids actually requested (one GET per
valid id, in order) and the accumulated `dates_map`. -/
def get_roblox_creation_dates (api : Int → FetchOutcome)
    (user_ids : List Int) : List Int × List (Int × Option String) :=
  let valid_ids := user_ids.filter (fun uid => !(uid == 0))
  (valid_ids,
   valid_ids.foldl (fun m uid => pyInsert m uid (outcomeVal (api uid))) [])

/-! ## Reconciliation engine (app.py lines 253-295) -/

/-- The delimiter of app.py line 264 (U+30FB KATAKANA MIDDLE DOT). -/
def delimChar : Char := '・'

/-- `raw_display_name.split("・", 1)` (app.py line 265): split off everything
before the first occurrence of the delimiter. -/
def splitFirstChar (c : Char) : List Char → Option (List Char × List Char)
  | [] => none
  | x :: xs =>
    if x == c then some ([], xs)
    else
      match splitFirstChar c xs with
      | some (a, b) => some (x :: a, b)
      | none => none

/-- Python `s.split("・", 1)` as a list of parts. -/
def pySplit1 (s : String) : List String :=
  match splitFirstChar delimChar s.data with
  | some (a, b) => [String.mk a, String.mk b]
  | none => [s]

/-- The display-name computation of app.py lines 261-273: when the raw
display name is truthy and contains the delimiter, take the trimmed part
after the first occurrence; otherwise run the fallback chain
`raw_display_name or username or row["DiscordUsername"] or "N/A"`. -/
def discordDisplayOf (rd uname : Option String) (rosterU : String) : String :=
  match rd with
  | some s =>
    if !(s == "") && listHas delimChar s.data then
      let parts := pySplit1 s
      if parts.length > 1 then pyStrip (parts.getD 1 "") else s
    else pyOrOS (some s) (pyOrOS uname (pyOrSS rosterU "N/A"))
  | none => pyOrOS none (pyOrOS uname (pyOrSS rosterU "N/A"))

/-- The `RobloxID` column value for one row (app.py lines 239, 256):
`row["RobloxUsername"].lower()` mapped through the username-to-id map,
`None` when the username cell is missing or absent from the map. -/
def resolvedId (idmap : String → Option Int) (row : RosterRow) : Option Int :=
  row.robloxUsername.bind (fun u => idmap (pyLower u))

/-- One iteration of the merge loop (app.py lines 254-295), producing the
dict appended to `combined_data`.  `dmap` is `discord_data_map` keyed by the
string Discord id, `amap` / `cmap` are the avatar and creation-date dicts
keyed by the integer Roblox id. -/
def mkRecord (dmap : String → Option DiscordInfo) (idmap : String → Option Int)
    (amap : List (Int × String)) (cmap : List (Int × Option String))
    (row : RosterRow) : MergedRecord :=
  let discord_id := pyStrCell row.discordId
  let roblox_id := resolvedId idmap row
  let dinfo := (dmap discord_id).getD ⟨none, none, none, none⟩
  let avatar_url : Option String :=
    match roblox_id with
    | some n => if n = 0 then some ROBLOX_AVATAR_PLACEHOLDER else lookupD amap n
    | none => some ROBLOX_AVATAR_PLACEHOLDER
  { discordUsername := pyOrOS dinfo.username (pyOrSS row.discordUsername "N/A")
    discordDisplayName := discordDisplayOf dinfo.displayName dinfo.username row.discordUsername
    discordId := discord_id
    discordJoinDate := dinfo.joinedAt
    discordCreationDate := dinfo.createdAt
    robloxUsername := pyOrOS row.robloxUsername "N/A"
    robloxId :=
      match roblox_id with
      | some n => if n = 0 then RId.na else RId.num n
      | none => RId.na
    robloxCreationDate :=
      match roblox_id with
      | some n => if n = 0 then none else (lookupD cmap n).join
      | none => none
    robloxAvatarUrl := pyOrOS avatar_url ROBLOX_AVATAR_PLACEHOLDER }

/-- The reconciliation engine proper: the merge loop applied to every row of
the (already id-stripped) frame, in order. -/
def combineAll (dmap : String → Option DiscordInfo) (idmap : String → Option Int)
    (amap : List (Int × String)) (cmap : List (Int × Option String))
    (roster : List RosterRow) : List MergedRecord :=
  roster.map (mkRecord dmap idmap amap cmap)

/-! ## The refresh pipeline (app.py lines 183-311) -/

/-- app.py line 207: `df_csv["DiscordID"].str.strip()` applied to the whole
column (missing cells stay missing). -/
def stripIds (roster : List RosterRow) : List RosterRow :=
  roster.map (fun r => { r with discordId := r.discordId.map pyStrip })

/-- app.py line 208: `df_csv["DiscordID"].dropna().unique().tolist()`, the
ids handed to the Discord fetch. -/
def target_discord_ids (roster : List RosterRow) : List String :=
  pdUnique ((stripIds roster).filterMap (fun r => r.discordId))

/-- The record list built by steps 1 and 5 of `refresh_all_data`
(strip the id column, then run the merge loop over every row). -/
def combined_data (roster : List RosterRow)
    (dmap : String → Option DiscordInfo) (idmap : String → Option Int)
    (amap : List (Int × String)) (cmap : List (Int × Option String)) :
    List MergedRecord :=
  combineAll dmap idmap amap cmap (stripIds roster)

/-- Python truthiness of `st.secrets.get(...)` (app.py line 192): absent or
empty values are falsy. -/
def truthyOS : Option String → Bool
  | none => false
  | some s => !(s == "")

/-- The environment a refresh runs against: secrets, the roster file, the
shape of its columns, the outcome of the Discord session, whatever
`discord_data.json` held before the run, and the remote endpoints. -/
structure RefreshEnv where
  botToken : Option String
  guildId : Option String
  csvFile : Option (List RosterRow)
  hasDiscordIdCol : Bool
  hasRobloxUsernameCol : Bool
  loginOk : Bool
  guildFound : Bool
  fetchedDiscord : String → Option DiscordInfo
  staleDiscordFile : Option (String → Option DiscordInfo)
  idmap : String → Option Int
  avatarApi : List Int → List (Int × String)
  creationApi : Int → FetchOutcome

/-- The fatal-abort control flow of `refresh_all_data` (app.py lines
189-300), returning the final state of `combined_data.json` given its state
before the run.
  * lines 192-194: missing/empty `DISCORD_BOT_TOKEN` or `GUILD_ID` return
    before anything is touched;
  * lines 201-203: missing `users.csv` returns;
  * line 207: a missing `DiscordID` column raises `KeyError`, caught by the
    handler at line 308 — no snapshot write;
  * line 214 and `fetch_discord_data` (lines 112-179): the bot writes
    `discord_data.json` only when login succeeds and the guild is found;
    otherwise that file keeps its previous content;
  * lines 216-221: the refresh aborts only when `discord_data.json` does not
    exist — a stale file from an earlier run is loaded and used;
  * line 227: a missing `RobloxUsername` column raises `KeyError` — no write;
  * lines 239-295: resolve ids, fetch profiles over the deduplicated id list
    (line 242), and run the merge loop;
  * lines 299-300: write the snapshot. -/
def refresh_all_data (env : RefreshEnv) (oldSnap : FileState) : FileState :=
  if !(truthyOS env.botToken) || !(truthyOS env.guildId) then oldSnap
  else
    match env.csvFile with
    | none => oldSnap
    | some roster =>
      if !env.hasDiscordIdCol then oldSnap
      else
        match (if env.loginOk && env.guildFound then some env.fetchedDiscord
               else env.staleDiscordFile) with
        | none => oldSnap
        | some dmap =>
          if !env.hasRobloxUsernameCol then oldSnap
          else
            let rows := stripIds roster
            let all_roblox_ids := pdUnique (rows.filterMap (resolvedId env.idmap))
            let amap := (get_roblox_avatar_urls env.avatarApi all_roblox_ids).2
            let cmap := (get_roblox_creation_dates env.creationApi all_roblox_ids).2
            writeSnapshot (combineAll dmap env.idmap amap cmap rows)

/-! ## Spec-side definitions

These follow the wording of the specification, independently of the embedded
code, so that the theorems below compare the two. -/

/-- Spec wording: "the part after the first occurrence of the delimiter" —
everything beyond the first index at which the delimiter occurs. -/
def firstIdxOf (c : Char) : List Char → Nat
  | [] => 0
  | x :: xs => if x == c then 0 else firstIdxOf c xs + 1

/-- Spec-side display-name target: the substring after the first occurrence
of the delimiter. -/
def specAfterFirst (s : String) : String :=
  String.mk (s.data.drop (firstIdxOf delimChar s.data + 1))

/-- Spec wording (Roster Loader): a row is kept only when its chat ID is
present and non-empty. -/
def validChatId (r : RosterRow) : Bool :=
  match r.discordId with
  | some s => !(s == "")
  | none => false

/-- Spec-side loader step: "drops rows with an empty/invalid chat ID". -/
def dropInvalidRows (l : List RosterRow) : List RosterRow :=
  l.filter validChatId

/-- Dedup worker: keep a row only when its chat ID has not been seen. -/
def dedupByChatIdGo (seen : List (Option String)) : List RosterRow → List RosterRow
  | [] => []
  | r :: rs =>
    if r.discordId ∈ seen then dedupByChatIdGo seen rs
    else r :: dedupByChatIdGo (r.discordId :: seen) rs

/-- Spec-side loader step: "deduplicates by chat ID preserving first
occurrence". -/
def dedupByChatId (l : List RosterRow) : List RosterRow :=
  dedupByChatIdGo [] l

/-- The roster as the spec's loader would deliver it to the merge: trimmed,
invalid chat IDs dropped, deduplicated by chat ID (first occurrence kept). -/
def specLoaderRows (roster : List RosterRow) : List RosterRow :=
  dedupByChatId (dropInvalidRows (stripIds roster))

/-! ## Helper lemmas -/

theorem lookup_pyInsert {β : Type} (m : List (Int × β)) (k : Int) (v : β) (y : Int) :
    lookupD (pyInsert m k v) y = if y = k then some v else lookupD m y := by
  induction m with
  | nil =>
    by_cases h : y = k
    · subst h; simp [pyInsert, lookupD]
    · simp [pyInsert, lookupD, h, Ne.symm h]
  | cons p rest ih =>
    obtain ⟨k', v'⟩ := p
    by_cases hk : k' = k
    · subst hk
      by_cases h : k' = y
      · subst h; simp [pyInsert, lookupD]
      · simp [pyInsert, lookupD, h, Ne.symm h]
    · by_cases h : k' = y
      · subst h
        simp [pyInsert, lookupD, hk, Ne.symm hk]
      · simp [pyInsert, lookupD, hk, h, ih]

theorem lookup_datesFold (api : Int → FetchOutcome) :
    ∀ (l : List Int) (m : List (Int × Option String)) (y : Int),
      lookupD (l.foldl (fun m uid => pyInsert m uid (outcomeVal (api uid))) m) y
        = if y ∈ l then some (outcomeVal (api y)) else lookupD m y := by
  intro l
  induction l with
  | nil => intro m y; simp
  | cons x xs ih =>
    intro m y
    simp only [List.foldl_cons, ih, lookup_pyInsert, List.mem_cons]
    by_cases hxs : y ∈ xs
    · simp [hxs]
    · by_cases hx : y = x
      · subst hx; simp [hxs]
      · simp [hxs, hx]

theorem mem_keys_foldPairs (ps : List (Int × String)) :
    ∀ (m : List (Int × String)) (y : Int),
      y ∈ keysD (ps.foldl (fun m' p => pyInsert m' p.1 p.2) m) →
      y ∈ keysD m ∨ ∃ p ∈ ps, p.1 = y := by
  induction ps with
  | nil => intro m y h; exact Or.inl h
  | cons p rest ih =>
    intro m y h
    simp only [List.foldl_cons] at h
    rcases ih _ y h with hm | ⟨q, hq, hqy⟩
    · -- y is a key of `pyInsert m p.1 p.2`
      clear h ih
      induction m with
      | nil =>
        simp only [pyInsert, keysD, List.map_cons, List.map_nil, List.mem_cons,
          List.not_mem_nil, or_false] at hm
        exact Or.inr ⟨p, List.mem_cons_self _ _, hm.symm⟩
      | cons q' m' ihm =>
        obtain ⟨k', v'⟩ := q'
        simp only [pyInsert] at hm
        by_cases hk : k' = p.1
        · rw [if_pos hk] at hm
          simp only [keysD, List.map_cons, List.mem_cons] at hm
          rcases hm with h1 | h2
          · exact Or.inr ⟨p, List.mem_cons_self _ _, h1.symm⟩
          · exact Or.inl (by simp [keysD, List.mem_cons]; right; simpa [keysD] using h2)
        · rw [if_neg hk] at hm
          simp only [keysD, List.map_cons, List.mem_cons] at hm
          rcases hm with h1 | h2
          · exact Or.inl (by simp [keysD, h1])
          · rcases ihm (by simpa [keysD] using h2) with h3 | h4
            · exact Or.inl (by simp [keysD, List.mem_cons]; right; simpa [keysD] using h3)
            · exact Or.inr h4
    · exact Or.inr ⟨q, List.mem_cons_of_mem _ hq, hqy⟩

theorem mem_keys_foldBatches (api : List Int → List (Int × String)) :
    ∀ (bs : List (List Int)) (m : List (Int × String)) (y : Int),
      y ∈ keysD (bs.foldl (fun m b => (api b).foldl (fun m' p => pyInsert m' p.1 p.2) m) m) →
      y ∈ keysD m ∨ ∃ b ∈ bs, ∃ p ∈ api b, p.1 = y := by
  intro bs
  induction bs with
  | nil => intro m y h; exact Or.inl h
  | cons b rest ih =>
    intro m y h
    simp only [List.foldl_cons] at h
    rcases ih _ y h with hm | ⟨b', hb', p, hp, hpy⟩
    · rcases mem_keys_foldPairs (api b) m y hm with h1 | ⟨p, hp, hpy⟩
      · exact Or.inl h1
      · exact Or.inr ⟨b, List.mem_cons_self _ _, p, hp, hpy⟩
    · exact Or.inr ⟨b', List.mem_cons_of_mem _ hb', p, hp, hpy⟩

theorem chunked_length_fuel {α : Type} :
    ∀ (n : Nat) (l : List α), l.length ≤ n →
      (chunked l).length = (l.length + 99) / 100 := by
  intro n
  induction n with
  | zero =>
    intro l h
    have : l = [] := List.length_eq_zero.mp (Nat.le_zero.mp h)
    subst this; simp [chunked, chunkedGo]
  | succ n ih =>
    intro l h
    match l with
    | [] => simp [chunked, chunkedGo]
    | x :: xs =>
      rw [chunked_cons]
      have hlen : ((x :: xs).drop 100).length = (x :: xs).length - 100 := by
        simp
      have hrec := ih ((x :: xs).drop 100) (by rw [hlen]; simp at h ⊢; omega)
      simp only [List.length_cons, hrec, hlen, List.length_cons]
      omega

theorem chunked_small_fuel {α : Type} :
    ∀ (n : Nat) (l : List α), l.length ≤ n →
      ∀ b ∈ chunked l, b.length ≤ 100 := by
  intro n
  induction n with
  | zero =>
    intro l h
    have : l = [] := List.length_eq_zero.mp (Nat.le_zero.mp h)
    subst this; intro b hb; simp [chunked, chunkedGo] at hb
  | succ n ih =>
    intro l h b hb
    match l with
    | [] => simp [chunked, chunkedGo] at hb
    | x :: xs =>
      rw [chunked_cons] at hb
      rcases List.mem_cons.mp hb with h1 | h2
      · subst h1
        exact List.length_take_le 100 (x :: xs)
      · exact ih ((x :: xs).drop 100) (by simp at h ⊢; omega) b h2

theorem chunked_flatten_fuel {α : Type} :
    ∀ (n : Nat) (l : List α), l.length ≤ n → (chunked l).flatten = l := by
  intro n
  induction n with
  | zero =>
    intro l h
    have : l = [] := List.length_eq_zero.mp (Nat.le_zero.mp h)
    subst this; rfl
  | succ n ih =>
    intro l h
    match l with
    | [] => rfl
    | x :: xs =>
      rw [chunked_cons, List.flatten_cons, ih ((x :: xs).drop 100) (by simp at h ⊢; omega),
        List.take_append_drop]

/-- Number of avatar batches: the ceiling of the valid-id count over 100. -/
theorem chunked_length {α : Type} (l : List α) :
    (chunked l).length = (l.length + 99) / 100 :=
  chunked_length_fuel l.length l (le_refl _)

/-- Every avatar batch holds at most 100 ids. -/
theorem chunked_small {α : Type} (l : List α) :
    ∀ b ∈ chunked l, b.length ≤ 100 :=
  chunked_small_fuel l.length l (le_refl _)

/-- Concatenating the batches gives back the valid-id list. -/
theorem chunked_flatten {α : Type} (l : List α) : (chunked l).flatten = l :=
  chunked_flatten_fuel l.length l (le_refl _)

theorem splitFirst_after (c : Char) :
    ∀ l : List Char, listHas c l = true →
      ∃ a, splitFirstChar c l = some (a, l.drop (firstIdxOf c l + 1)) := by
  intro l
  induction l with
  | nil => intro h; simp [listHas] at h
  | cons x xs ih =>
    intro h
    by_cases hx : x == c
    · exact ⟨[], by simp [splitFirstChar, firstIdxOf, hx]⟩
    · rw [listHas, Bool.or_eq_true] at h
      rcases h with h1 | h2
      · exact absurd h1 hx
      · obtain ⟨a, ha⟩ := ih h2
        refine ⟨x :: a, ?_⟩
        rw [splitFirstChar, if_neg (by simpa using hx), ha]
        rw [firstIdxOf, if_neg (by simpa using hx)]
        simp [List.drop_succ_cons]

theorem dedupGo_eq_self :
    ∀ (l : List RosterRow) (seen : List (Option String)),
      (∀ r ∈ l, r.discordId ∉ seen) → (l.map (fun r => r.discordId)).Nodup →
      dedupByChatIdGo seen l = l := by
  intro l
  induction l with
  | nil => intro seen _ _; rfl
  | cons r rs ih =>
    intro seen hseen hnd
    rw [List.map_cons, List.nodup_cons] at hnd
    obtain ⟨hhead, htail⟩ := hnd
    rw [dedupByChatIdGo, if_neg (hseen r (List.mem_cons_self _ _))]
    congr 1
    apply ih
    · intro x hx
      rw [List.mem_cons]
      rintro (he | hs)
      · exact hhead (List.mem_map.mpr ⟨x, hx, he⟩)
      · exact hseen x (List.mem_cons_of_mem _ hx) hs
    · exact htail

/-- A roster whose chat IDs are pairwise distinct is left unchanged by the
spec loader's dedup step. -/
theorem dedup_eq_self (l : List RosterRow)
    (h : (l.map (fun r => r.discordId)).Nodup) : dedupByChatId l = l :=
  dedupGo_eq_self l [] (fun _ _ => List.not_mem_nil _) h

theorem decode_encode (r : MergedRecord) : decodeRecord (encodeRecord r) = some r := by
  obtain ⟨a, b, c, d, e, f, g, h, i⟩ := r
  cases d <;> cases e <;> cases h <;> cases g <;> rfl

theorem decodeList_map (rs : List MergedRecord) :
    decodeList (rs.map encodeRecord) = some rs := by
  induction rs with
  | nil => rfl
  | cons r rest ih => simp [decodeList, decode_encode, ih]

/-! ## The claims -/

/-- C1, counterexample.  The claim says the refresh emits one MergedRecord
per roster entry after dropping invalid chat IDs and deduplicating by chat
ID, so that no chat ID yields more than one record.  On a roster with the
same chat ID twice, the merge loop (which iterates every CSV row,
app.py line 254) emits two records with chat ID "1", while the spec-side
loader would have kept a single entry. -/
theorem claim1_dedup_counterexample :
    (combined_data [⟨some "1", "alice", none⟩, ⟨some "1", "alice", none⟩]
        (fun _ => none) (fun _ => none) [] []).map (fun r => r.discordId)
      = ["1", "1"] ∧
    (specLoaderRows [⟨some "1", "alice", none⟩, ⟨some "1", "alice", none⟩]).length = 1 := by
  constructor <;> rfl

/-- C1, amended.  The merge loop emits exactly one record per roster row —
dropping and dedup by chat ID apply only to the fetch target list, not to
emission — so the claim as stated holds exactly when the (trimmed) roster
chat IDs are all present, non-empty and pairwise distinct; the record count
always equals the roster row count. -/
theorem claim1_one_record_per_row (roster : List RosterRow)
    (dmap : String → Option DiscordInfo) (idmap : String → Option Int)
    (amap : List (Int × String)) (cmap : List (Int × Option String))
    (h1 : (stripIds roster).all validChatId = true)
    (h2 : ((stripIds roster).map (fun r => r.discordId)).Nodup) :
    combined_data roster dmap idmap amap cmap
      = (specLoaderRows roster).map (mkRecord dmap idmap amap cmap) ∧
    (combined_data roster dmap idmap amap cmap).length = roster.length := by
  have hdrop : dropInvalidRows (stripIds roster) = stripIds roster :=
    List.filter_eq_self.mpr (List.all_eq_true.mp h1)
  have hded : dedupByChatId (stripIds roster) = stripIds roster := dedup_eq_self _ h2
  constructor
  · rw [specLoaderRows, hdrop, hded]; rfl
  · simp [combined_data, combineAll, stripIds]

/-- C1 witness: a two-row roster with distinct chat IDs yields two records. -/
theorem claim1_one_record_per_row_witness :
    (combined_data [⟨some "1", "a", none⟩, ⟨some "2", "b", none⟩]
        (fun _ => none) (fun _ => none) [] []).length = 2 :=
  (claim1_one_record_per_row [⟨some "1", "a", none⟩, ⟨some "2", "b", none⟩]
    (fun _ => none) (fun _ => none) [] [] (by decide) (by decide)).2

/-- C2.  The display-name computation (app.py lines 261-273): a present
(non-null, non-empty — Python truthiness) display name containing the
delimiter yields the trimmed part after its first occurrence; a present one
without the delimiter is returned unchanged; an absent one falls back to the
member username, then to the roster's raw chat username, then to "N/A". -/
theorem claim2_display_name_rules (rd uname : Option String) (rosterU : String) :
    (∀ s, rd = some s → listHas delimChar s.data = true →
      discordDisplayOf rd uname rosterU = pyStrip (specAfterFirst s)) ∧
    (∀ s, rd = some s → s ≠ "" → listHas delimChar s.data = false →
      discordDisplayOf rd uname rosterU = s) ∧
    (rd = none → ∀ u, uname = some u → u ≠ "" →
      discordDisplayOf rd uname rosterU = u) ∧
    (rd = none → (uname = none ∨ uname = some "") → rosterU ≠ "" →
      discordDisplayOf rd uname rosterU = rosterU) ∧
    (rd = none → (uname = none ∨ uname = some "") → rosterU = "" →
      discordDisplayOf rd uname rosterU = "N/A") := by
  refine ⟨?_, ?_, ?_, ?_, ?_⟩
  · intro s hrd hhas
    subst hrd
    have hne : s ≠ "" := by
      intro he
      subst he
      exact absurd hhas (by decide)
    obtain ⟨a, ha⟩ := splitFirst_after delimChar s.data hhas
    have hcond : (!(s == "") && listHas delimChar s.data) = true := by
      simp [hhas, beq_eq_false_iff_ne.mpr hne]
    simp [discordDisplayOf, hcond, pySplit1, ha, specAfterFirst]
  · intro s hrd hne hhas
    subst hrd
    simp [discordDisplayOf, hhas, pyOrOS, beq_eq_false_iff_ne.mpr hne]
  · intro hrd u hu hune
    subst hrd
    subst hu
    simp [discordDisplayOf, pyOrOS, beq_eq_false_iff_ne.mpr hune]
  · intro hrd hu hros
    subst hrd
    rcases hu with hu | hu <;> subst hu <;>
      simp [discordDisplayOf, pyOrOS, pyOrSS, beq_eq_false_iff_ne.mpr hros]
  · intro hrd hu hros
    subst hrd
    subst hros
    rcases hu with hu | hu <;> subst hu <;> rfl

/-- C2 witness: the spec's own examples — "🔰・CoolName" parses to
"CoolName", and a fully absent chain falls through to "N/A". -/
theorem claim2_display_name_witness :
    discordDisplayOf (some "🔰・CoolName") none "x" = "CoolName" ∧
    discordDisplayOf none none "" = "N/A" := by
  constructor
  · exact ((claim2_display_name_rules (some "🔰・CoolName") none "x").1
      "🔰・CoolName" rfl (by decide)).trans (by decide)
  · exact (claim2_display_name_rules none none "").2.2.2.2 rfl (Or.inl rfl) rfl

/-- C3.  `load_cached_data`: a missing snapshot returns absent with no error;
an unparsable snapshot returns no (even partial) value and surfaces a
corruption error to the viewer, an observable result distinct from the
missing case; a parsable snapshot returns its parsed value; in no case does
the caller crash (the function is total). -/
theorem claim3_snapshot_read_degrades :
    load_cached_data .missing = (none, []) ∧
    (load_cached_data .unparsable).1 = none ∧
    (load_cached_data .unparsable).2 ≠ [] ∧
    load_cached_data .unparsable ≠ load_cached_data .missing ∧
    ∀ j, load_cached_data (.content j) = (some j, []) := by
  refine ⟨rfl, rfl, by simp [load_cached_data], by simp [load_cached_data], fun j => rfl⟩

/-- C4.  Avatar batching (app.py lines 74-108): the number of issued calls is
the ceiling of the valid-id count over 100 (equal to ceil(n/100) when every
input id is valid), every batch holds at most 100 ids, and — given that the
avatar endpoint only echoes ids it was asked about, its documented contract —
the key set of the returned map is a subset of the input ids. -/
theorem claim4_avatar_batching (api : List Int → List (Int × String)) (ids : List Int) :
    (get_roblox_avatar_urls api ids).1.length
        = ((ids.filter (fun uid => !(uid == 0))).length + 99) / 100 ∧
    ((∀ x ∈ ids, x ≠ 0) →
      (get_roblox_avatar_urls api ids).1.length = (ids.length + 99) / 100) ∧
    (∀ b ∈ (get_roblox_avatar_urls api ids).1, b.length ≤ 100) ∧
    ((∀ b : List Int, ∀ p ∈ api b, p.1 ∈ b) →
      ∀ k ∈ keysD (get_roblox_avatar_urls api ids).2, k ∈ ids) := by
  have hbatches : (get_roblox_avatar_urls api ids).1
      = chunked (ids.filter (fun uid => !(uid == 0))) := rfl
  refine ⟨?_, ?_, ?_, ?_⟩
  · rw [hbatches, chunked_length]
  · intro hall
    have hfil : ids.filter (fun uid => !(uid == 0)) = ids :=
      List.filter_eq_self.mpr (fun a ha => by simpa using hall a ha)
    rw [hbatches, hfil, chunked_length]
  · intro b hb
    rw [hbatches] at hb
    exact chunked_small _ b hb
  · intro hapi k hk
    have hm : k ∈ keysD ([] : List (Int × String)) ∨
        ∃ b ∈ chunked (ids.filter (fun uid => !(uid == 0))),
          ∃ p ∈ api b, p.1 = k :=
      mem_keys_foldBatches api (chunked (ids.filter (fun uid => !(uid == 0)))) [] k hk
    rcases hm with hnil | ⟨b, hb, p, hp, hpk⟩
    · simp [keysD] at hnil
    · have hkb : k ∈ b := hpk ▸ hapi b p hp
      have : k ∈ (chunked (ids.filter (fun uid => !(uid == 0)))).flatten :=
        List.mem_flatten.mpr ⟨b, hb, hkb⟩
      rw [chunked_flatten] at this
      exact (List.mem_filter.mp this).1

set_option maxRecDepth 100000 in
/-- C4 witness: for the 250 ids 1..250, exactly three calls of sizes
100, 100 and 50 are issued, and the key set of the result is a subset of
the input (the oracle answers each batch elementwise). -/
theorem claim4_avatar_batching_witness :
    ((get_roblox_avatar_urls (fun b => b.map (fun i => (i, "u")))
        ((List.range 250).map (fun n => (n : Int) + 1))).1.map
      (fun b => b.length)) = [100, 100, 50] ∧
    (∀ k ∈ keysD (get_roblox_avatar_urls (fun b => b.map (fun i => (i, "u")))
        ((List.range 250).map (fun n => (n : Int) + 1))).2,
      k ∈ (List.range 250).map (fun n => (n : Int) + 1)) := by
  constructor
  · decide
  · exact (claim4_avatar_batching (fun b => b.map (fun i => (i, "u")))
      ((List.range 250).map (fun n => (n : Int) + 1))).2.2.2
      (fun b p hp => by
        obtain ⟨i, hi, rfl⟩ := List.mem_map.mp hp
        exact hi)

/-- C5, code-bug evidence.  The code intends a failed bot run to stop the
refresh (app.py line 220, "Stopping refresh"), but it detects the failure by
the absence of `discord_data.json`; that file persists from earlier runs, so
with a stale file present a Discord login failure does not abort — the
refresh proceeds on the stale member data and overwrites the final
snapshot.  This term evaluates the embedded control flow at such an
environment: valid secrets, a one-row roster, failed login, stale member
file present — the snapshot file is rewritten rather than left untouched. -/
theorem claim5_stale_discord_file_bug :
    refresh_all_data
      { botToken := some "t", guildId := some "g",
        csvFile := some [⟨some "1", "alice", none⟩],
        hasDiscordIdCol := true, hasRobloxUsernameCol := true,
        loginOk := false, guildFound := true,
        fetchedDiscord := fun _ => none,
        staleDiscordFile := some (fun _ => none),
        idmap := fun _ => none, avatarApi := fun _ => [],
        creationApi := fun _ => .exn }
      (FileState.content (J.arr []))
      = writeSnapshot [mkRecord (fun _ => none) (fun _ => none) [] []
          ⟨some "1", "alice", none⟩] ∧
    refresh_all_data
      { botToken := some "t", guildId := some "g",
        csvFile := some [⟨some "1", "alice", none⟩],
        hasDiscordIdCol := true, hasRobloxUsernameCol := true,
        loginOk := false, guildFound := true,
        fetchedDiscord := fun _ => none,
        staleDiscordFile := some (fun _ => none),
        idmap := fun _ => none, avatarApi := fun _ => [],
        creationApi := fun _ => .exn }
      (FileState.content (J.arr []))
      ≠ FileState.content (J.arr []) := by
  constructor
  · rfl
  · intro h
    have h' : FileState.content (J.arr [encodeRecord (mkRecord (fun _ => none)
        (fun _ => none) [] [] ⟨some "1", "alice", none⟩)])
        = FileState.content (J.arr []) := h
    injection h' with h1
    injection h1 with h2
    exact List.noConfusion h2

/-- C6.  Snapshot round trip: writing any record list and reading the
snapshot back yields the same records, in order, all fields equal. -/
theorem claim6_snapshot_round_trip (rs : List MergedRecord) :
    readRecords (writeSnapshot rs) = some rs := by
  simp [readRecords, writeSnapshot, load_cached_data, decodeRecords, decodeList_map]

/-- C7.  The reconciliation engine is a pure function of its three inputs
(roster, chat-member map, game-profile maps): equal inputs give equal
outputs, and the output follows roster order — the i-th record carries the
i-th roster row's chat ID. -/
theorem claim7_reconciliation_deterministic
    (dmap dmap' : String → Option DiscordInfo) (idmap idmap' : String → Option Int)
    (amap amap' : List (Int × String)) (cmap cmap' : List (Int × Option String))
    (roster roster' : List RosterRow)
    (h1 : dmap = dmap') (h2 : idmap = idmap') (h3 : amap = amap')
    (h4 : cmap = cmap') (h5 : roster = roster') :
    combineAll dmap idmap amap cmap roster = combineAll dmap' idmap' amap' cmap' roster' ∧
    (combineAll dmap idmap amap cmap roster).map (fun r => r.discordId)
      = roster.map (fun row => pyStrCell row.discordId) := by
  subst h1 h2 h3 h4 h5
  refine ⟨rfl, ?_⟩
  rw [combineAll, List.map_map]
  rfl

/-- C7 witness: two runs on the same concrete inputs coincide, and the
output order carries the roster's chat IDs. -/
theorem claim7_reconciliation_deterministic_witness :
    combineAll (fun _ => none) (fun _ => none) [] [] [⟨some "1", "a", none⟩]
      = combineAll (fun _ => none) (fun _ => none) [] [] [⟨some "1", "a", none⟩] ∧
    (combineAll (fun _ => none) (fun _ => none) [] []
        [⟨some "1", "a", none⟩]).map (fun r => r.discordId) = ["1"] :=
  ⟨(claim7_reconciliation_deterministic (fun _ => none) (fun _ => none)
      (fun _ => none) (fun _ => none) [] [] [] [] [⟨some "1", "a", none⟩]
      [⟨some "1", "a", none⟩] rfl rfl rfl rfl rfl).1,
   ((claim7_reconciliation_deterministic (fun _ => none) (fun _ => none)
      (fun _ => none) (fun _ => none) [] [] [] [] [⟨some "1", "a", none⟩]
      [⟨some "1", "a", none⟩] rfl rfl rfl rfl rfl).2).trans rfl⟩

/-- C8.  Per-id creation-date fetches (app.py lines 52-72): empty input
yields no call and an empty map; a failing id's stored value is null while
— for any two oracles that differ only at one id — every other id's value
is unchanged. -/
theorem claim8_per_id_isolation (api : Int → FetchOutcome) (ids : List Int) :
    (ids = [] → get_roblox_creation_dates api ids = ([], [])) ∧
    (∀ x ∈ ids.filter (fun uid => !(uid == 0)), (∀ c, api x ≠ .ok c) →
      lookupD (get_roblox_creation_dates api ids).2 x = some none) ∧
    (∀ (api2 : Int → FetchOutcome) (x : Int), (∀ y, y ≠ x → api2 y = api y) →
      ∀ y ∈ ids.filter (fun uid => !(uid == 0)), y ≠ x →
        lookupD (get_roblox_creation_dates api2 ids).2 y
          = lookupD (get_roblox_creation_dates api ids).2 y) := by
  refine ⟨?_, ?_, ?_⟩
  · intro h
    subst h
    rfl
  · intro x hx hfail
    have e : lookupD (get_roblox_creation_dates api ids).2 x
        = if x ∈ ids.filter (fun uid => !(uid == 0))
          then some (outcomeVal (api x))
          else lookupD ([] : List (Int × Option String)) x :=
      lookup_datesFold api (ids.filter (fun uid => !(uid == 0))) [] x
    rw [e, if_pos hx]
    cases hapi : api x with
    | ok c => exact absurd hapi (hfail c)
    | httpErr code => simp [outcomeVal]
    | exn => simp [outcomeVal]
  · intro api2 x hagree y hy hne
    have e2 : lookupD (get_roblox_creation_dates api2 ids).2 y
        = if y ∈ ids.filter (fun uid => !(uid == 0))
          then some (outcomeVal (api2 y))
          else lookupD ([] : List (Int × Option String)) y :=
      lookup_datesFold api2 (ids.filter (fun uid => !(uid == 0))) [] y
    have e1 : lookupD (get_roblox_creation_dates api ids).2 y
        = if y ∈ ids.filter (fun uid => !(uid == 0))
          then some (outcomeVal (api y))
          else lookupD ([] : List (Int × Option String)) y :=
      lookup_datesFold api (ids.filter (fun uid => !(uid == 0))) [] y
    rw [e1, e2, if_pos hy, if_pos hy, hagree y hne]

/-- C8 witness: with an oracle that always raises, the value recorded for a
requested id is null. -/
theorem claim8_per_id_isolation_witness :
    lookupD (get_roblox_creation_dates (fun _ => FetchOutcome.exn) [1, 2]).2 1
      = some none :=
  (claim8_per_id_isolation (fun _ => FetchOutcome.exn) [1, 2]).2.1 1 (by decide)
    (fun c h => FetchOutcome.noConfusion h)

/-- C9, counterexample.  The claim says a concurrent reader never observes a
partial write.  The write truncates `combined_data.json` in place
(`open(path, "w")`, app.py line 299) before `json.dump` completes, so the
write trace passes through an unparsable state that is neither the final
snapshot nor any previous snapshot content. -/
theorem claim9_partial_write_counterexample :
    FileState.unparsable ∈ pyWriteTrace [] ∧
    FileState.unparsable ≠ writeSnapshot [] ∧
    FileState.unparsable ≠ FileState.content (J.arr []) := by
  refine ⟨by simp [pyWriteTrace], ?_, ?_⟩
  · intro h
    exact FileState.noConfusion h
  · intro h
    exact FileState.noConfusion h

/-- C9, amended.  The snapshot write is not atomic: the file is truncated in
place before the new content lands, and a reader at that moment sees
unparsable content, which `load_cached_data` degrades to an absent result
plus a corruption error; only the final trace state is the complete
snapshot. -/
theorem claim9_write_trace (rs : List MergedRecord) :
    FileState.unparsable ∈ pyWriteTrace rs ∧
    (load_cached_data .unparsable).1 = none ∧
    (pyWriteTrace rs).getLast? = some (writeSnapshot rs) :=
  ⟨by simp [pyWriteTrace], rfl, rfl⟩

/-- C10, counterexample.  The claim says the `robloxId` field holds the
resolved integer id whenever the roster row's game username resolved to an
id.  A username resolving to id 0 falsifies it: `roblox_id or "N/A"`
(app.py line 292) treats 0 as falsy and stores the sentinel instead. -/
theorem claim10_zero_id_counterexample :
    resolvedId (fun u => if u = "bob" then some 0 else none)
      ⟨some "1", "alice", some "Bob"⟩ = some 0 ∧
    (mkRecord (fun _ => none) (fun u => if u = "bob" then some 0 else none) [] []
        ⟨some "1", "alice", some "Bob"⟩).robloxId = RId.na ∧
    RId.na ≠ RId.num 0 := by
  refine ⟨rfl, rfl, by decide⟩

/-- C10, amended.  The `robloxId` field holds the resolved integer id when
the username resolved to a nonzero id, and the string sentinel "N/A" when
unresolved or resolved to 0; the serialized field is an integer or the
string "N/A", never null. -/
theorem claim10_roblox_id_field (row : RosterRow)
    (dmap : String → Option DiscordInfo) (idmap : String → Option Int)
    (amap : List (Int × String)) (cmap : List (Int × Option String)) :
    (∀ n : Int, resolvedId idmap row = some n → n ≠ 0 →
      (mkRecord dmap idmap amap cmap row).robloxId = RId.num n) ∧
    (resolvedId idmap row = none ∨ resolvedId idmap row = some 0 →
      (mkRecord dmap idmap amap cmap row).robloxId = RId.na) ∧
    (∀ v : RId, encodeRId v ≠ J.null) ∧
    (∀ n : Int, encodeRId (RId.num n) = J.int n) ∧ encodeRId RId.na = J.str "N/A" := by
  have hproj : (mkRecord dmap idmap amap cmap row).robloxId
      = match resolvedId idmap row with
        | some n => if n = 0 then RId.na else RId.num n
        | none => RId.na := rfl
  refine ⟨?_, ?_, ?_, fun n => rfl, rfl⟩
  · intro n h hn
    rw [hproj, h]
    simp [hn]
  · intro h
    rcases h with h | h
    · rw [hproj, h]
    · rw [hproj, h]
      rfl
  · intro v
    cases v <;> simp [encodeRId]

/-- C10 witness: a username resolving to id 7 stores the integer 7. -/
theorem claim10_roblox_id_field_witness :
    (mkRecord (fun _ => none) (fun u => if u = "bob" then some 7 else none) [] []
        ⟨some "1", "a", some "Bob"⟩).robloxId = RId.num 7 :=
  (claim10_roblox_id_field ⟨some "1", "a", some "Bob"⟩ (fun _ => none)
    (fun u => if u = "bob" then some 7 else none) [] []).1 7 rfl (by decide)

end BmInfo
